import Mathlib

/-!
Shallow embedding of the core of the ingit repository (repository snapshot,
reconciliation engine, checkout selector, batch orchestrator), translated from
`src/ingit/repo_data.py`, `src/ingit/project.py` and `src/ingit/runtime.py`,
together with theorems settling the claims about it.
-/

namespace Ingit

/-! ### Characters and strings that are awkward to write literally -/

/-- Single-quote character (ASCII 39). -/
def squoteChar : Char := Char.ofNat 39

/-- Double-quote character (ASCII 34). -/
def dquoteChar : Char := Char.ofNat 34

/-- Backslash character (ASCII 92). -/
def backslashChar : Char := Char.ofNat 92

/-- Single-quote as a string. -/
def squote : String := String.singleton squoteChar

/-- Double-quote as a string. -/
def dquote : String := String.singleton dquoteChar

/-! ### A small model of the Python runtime values the code manipulates

The checkout selector mixes Python values of several runtime types in one
dictionary: `str` (local branch names, the `'---'` placeholder), git
`Reference` objects (tags and remote refs), tuples (dictionary keys of
`remote_branches`, `TrackingBranchTuple` named tuples) and `None`.
Python `==` between these values is: `str == str` iff contents equal;
`Reference == Reference` iff they denote the same ref (GitPython compares
paths); a `Reference` never equals a plain `str` (its `__eq__` requires the
other operand to have a `path` attribute); tuples are equal iff they have the
same length and are elementwise equal; `None` equals only `None`.
`PyVal` captures exactly the shapes that occur (tuples of arity 2 and 3). -/
inductive PyVal where
  | pstr (s : String)
  | pref (name : String)
  | pnone
  | ptup2 (a b : PyVal)
  | ptup3 (a b c : PyVal)
deriving DecidableEq, Repr

/-- Python `repr` of the modelled values, as used when a tuple is rendered
inside an f-string.  The `repr` of a git `Reference` is only ever produced on
a dead code path (see `remoteTarget`), so its exact spelling is irrelevant;
we render it in the GitPython style. -/
def pyRepr : PyVal → String
  | .pstr s => squote ++ s ++ squote
  | .pref n => "<git.Reference " ++ dquote ++ n ++ dquote ++ ">"
  | .pnone => "None"
  | .ptup2 a b => "(" ++ pyRepr a ++ ", " ++ pyRepr b ++ ")"
  | .ptup3 a b c => "(" ++ pyRepr a ++ ", " ++ pyRepr b ++ ", " ++ pyRepr c ++ ")"

/-- Python `str` of the modelled values: `str` renders as itself, `str` of a
git `Reference` is its name, tuples render via `repr` of their elements. -/
def pyStr : PyVal → String
  | .pstr s => s
  | .pref n => n
  | .pnone => "None"
  | .ptup2 a b => pyRepr (.ptup2 a b)
  | .ptup3 a b c => pyRepr (.ptup3 a b c)

/-- Python `'/'.join(items)`: a `TypeError` unless every item is a `str`. -/
def pyStrJoin (sep : String) (items : List PyVal) : Except String String :=
  let asStr : PyVal → Except String String := fun v =>
    match v with
    | .pstr s => Except.ok s
    | _ => Except.error "TypeError: sequence item: expected str instance"
  match items.mapM asStr with
  | .ok parts => .ok (String.intercalate sep parts)
  | .error e => .error e

/-! ### Ordered-dictionary helpers

The source represents branches, remotes and menu entries as
`collections.OrderedDict` / `dict`.  We model them as association lists in
insertion order.  `odUpdate` is `OrderedDict.update`: an existing key keeps
its position and gets the new value, a new key is appended. -/

/-- Replace the value at `k` in `d` (first occurrence), if present. -/
def odSet {α : Type} (d : List (String × α)) (k : String) (v : α) :
    List (String × α) :=
  match d with
  | [] => []
  | (k0, v0) :: rest =>
    if k0 = k then (k0, v) :: rest else (k0, v0) :: odSet rest k v

/-- `OrderedDict.update`: existing keys keep their position and receive the
new value, new keys are appended in order. -/
def odUpdate {α : Type} (d : List (String × α)) :
    List (String × α) → List (String × α)
  | [] => d
  | (k, v) :: rest =>
    if (d.map Prod.fst).contains k then odUpdate (odSet d k v) rest
    else odUpdate (d ++ [(k, v)]) rest

/-- Python `dict` comprehension semantics: first insertion fixes the position
of a key, the last insertion fixes its value. -/
def pyDict {α : Type} (items : List (String × String × α)) :
    List ((String × String) × α) :=
  go [] items
where
  go (acc : List ((String × String) × α)) :
      List (String × String × α) → List ((String × String) × α)
    | [] => acc
    | (k1, k2, v) :: rest =>
      if (acc.map Prod.fst).contains (k1, k2) then
        go (acc.map fun p => if p.1 = (k1, k2) then (p.1, v) else p) rest
      else go (acc ++ [((k1, k2), v)]) rest

/-! ### Character-level string helpers

`str.replace` and `str.partition` are re-implemented on character lists so
that every definition evaluates by kernel reduction. -/

/-- Python `str.partition(sep)` for a single-character separator, returning
the part before the first occurrence and the part after it (the part after is
empty when the separator does not occur, like Python's `partition`). -/
def splitAtFirst (sep : Char) : List Char → List Char × List Char
  | [] => ([], [])
  | c :: rest =>
    if c = sep then ([], rest)
    else
      let p := splitAtFirst sep rest
      (c :: p.1, p.2)

/-- `str.partition('/')` restricted to the two components the source uses. -/
def partitionSlash (s : String) : String × String :=
  let p := splitAtFirst '/' s.toList
  (String.mk p.1, String.mk p.2)

/-- Fuel-driven worker for `replaceAll`; the fuel is the length of the
subject string, which bounds the number of steps. -/
def replaceAllAux (pat repl : List Char) : Nat → List Char → List Char
  | 0, s => s
  | _ + 1, [] => []
  | fuel + 1, c :: rest =>
    if pat.isPrefixOf (c :: rest) then
      repl ++ replaceAllAux pat repl fuel ((c :: rest).drop pat.length)
    else c :: replaceAllAux pat repl fuel rest

/-- Python `str.replace(pat, repl)` (all occurrences, left to right).  The
patterns used by the source (`"<remote>/"`, `"\\"`) are never empty. -/
def replaceAll (s pat repl : String) : String :=
  if pat.isEmpty then s
  else String.mk (replaceAllAux pat.toList repl.toList s.toList.length s.toList)

/-- URL/path normalization used by `Project._status_remotes`:
`v.replace('\\', '/')`. -/
def normalizeUrl (u : String) : String :=
  String.mk (u.toList.map fun c => if c = backslashChar then '/' else c)

/-! ### The underlying git repository (the data GitPython exposes)

`RepoData.refresh` only reads from the wrapped `git.Repo`: the list of local
branch references (each with an optional tracking branch), whether HEAD is
detached (`repo.active_branch` raises `TypeError` in that case), the name of
the HEAD branch otherwise, and the list of remotes (each with its URLs and
the references that live under it). -/

/-- One entry of `git.Repo.branches`: the branch name (`str(ref)`) and
`str(ref.tracking_branch())` when a tracking branch is configured. -/
structure GitBranch where
  name : String
  trackingRef : Option String
deriving DecidableEq, Repr

/-- One entry of `git.Repo.remotes`: its name (`str(remote)`), its URLs
(`remote.urls`) and the names of the references under it (`str(ref)` for
`ref in remote.refs`, e.g. `"origin/master"`). -/
structure GitRemote where
  name : String
  urls : List String
  refNames : List String
deriving DecidableEq, Repr

/-- The observable state of the wrapped `git.Repo`. -/
structure GitRepo where
  branchList : List GitBranch
  headDetached : Bool
  headName : String
  headTrackingRef : Option String
  remoteList : List GitRemote
deriving DecidableEq, Repr

/-! ### `RepoData` — the repository snapshot (`src/ingit/repo_data.py`)

`tracking_branches` maps a branch name to `None` or to
`TrackingBranchTuple(remote_name, tracking_branch_name, reference)`; the
third component is a `git.Reference` object, which we record by its name.
Note that the tuple has THREE fields. -/

/-- `TrackingBranchTuple`: `(remote_name, tracking_branch_name, reference)`. -/
abbrev TrackingBranchTuple := String × String × String

/-- The snapshot fields of `RepoData` after a `refresh()`.  `remotes` keeps
the `git.Remote` handles keyed by name, in the order `_refresh_remotes`
produces (default remote first). -/
structure RepoData where
  activeBranch : Option String
  branches : List String
  trackingBranches : List (String × Option TrackingBranchTuple)
  remotes : List (String × GitRemote)
  remoteBranches : List ((String × String) × String)
deriving DecidableEq, Repr

/-- The `PyVal` stored in `tracking_branches.values()`: `None` or the
three-field named tuple whose last component is a `git.Reference`. -/
def trackingPyVal : Option TrackingBranchTuple → PyVal
  | none => .pnone
  | some (r, b, ref) => .ptup3 (.pstr r) (.pstr b) (.pref ref)

/-- `RepoData._refresh_tracking_branches`: for every branch in the
`branches` dict (here: name plus the branch's tracking reference), either
`None` or `TrackingBranchTuple(remote_name, branch_name, ref)` where
`remote_name, _, branch_name = str(ref).partition('/')`. -/
def refreshTrackingBranches (branchPairs : List (String × Option String)) :
    List (String × Option TrackingBranchTuple) :=
  branchPairs.map fun p =>
    (p.1,
      p.2.map fun t =>
        let q := partitionSlash t
        (q.1, q.2, t))

/-- Active-branch determination at the start of `refresh()`: `None` when
there are no branches; `repo.active_branch` raises `TypeError` (caught, with
a warning) when HEAD is detached. -/
def refreshActive (g : GitRepo) : Option String :=
  if g.branchList.isEmpty then none
  else if g.headDetached then none
  else some g.headName

/-- The `branches` dict built by `refresh()`:
`OrderedDict([(active, active_ref)])` (when on a branch) updated with all
branches, each value recorded by its tracking reference. -/
def refreshBranchPairs (g : GitRepo) : List (String × Option String) :=
  odUpdate
    (match refreshActive g with
     | none => []
     | some a => [(a, g.headTrackingRef)])
    (g.branchList.map fun b => (b.name, b.trackingRef))

/-- `RepoData.default_remote`: the remote-name component of the tracking
branch of the active branch, if any. -/
def refreshDefaultRemote (g : GitRepo) : Option String :=
  match refreshActive g with
  | none => none
  | some a =>
    match (refreshTrackingBranches (refreshBranchPairs g)).lookup a with
    | some (some t) => some t.1
    | _ => none

/-- `_find_default_remote_ref` + `_refresh_remotes`: the default remote
first (assertions of the source become `Except.error`), then all remotes in
repository order. -/
def refreshRemotes (g : GitRepo) : Except String (List (String × GitRemote)) :=
  match refreshDefaultRemote g with
  | none => .ok (odUpdate [] (g.remoteList.map fun r => (r.name, r)))
  | some dr =>
    match g.remoteList.filter fun r => r.name == dr with
    | [] => .error "assertion failed: default_remote_ref is not None"
    | [r] => .ok (odUpdate [(dr, r)] (g.remoteList.map fun r => (r.name, r)))
    | _ => .error "assertion failed: len(matching_remotes) <= 1"

/-- `RepoData.refresh`.  Consistency-fault assertions become `Except.error`;
the assertion that every branch value is non-null always holds here (the
branch references are values, not `Option`s).  `refresh` overwrites every
snapshot field and reads none of the previous ones. -/
def refresh (g : GitRepo) : Except String RepoData :=
  match refreshRemotes g with
  | .error e => .error e
  | .ok remotes =>
    -- remote_branches: {(remote_name, str(ref).replace(remote_name + '/', '')): ref}
    .ok
      { activeBranch := refreshActive g
        branches := (refreshBranchPairs g).map Prod.fst
        trackingBranches := refreshTrackingBranches (refreshBranchPairs g)
        remotes := remotes
        remoteBranches :=
          pyDict
            (remotes.flatMap fun p =>
              p.2.refNames.map fun ref =>
                (p.1, replaceAll ref (p.1 ++ "/") "", ref)) }

/-- `refresh()` called on an existing snapshot: the method fully overwrites
every snapshot field from the underlying repository and reads none of the
prior field values, so the prior snapshot is an unused argument. -/
def refreshFrom (g : GitRepo) (_prior : RepoData) : Except String RepoData :=
  refresh g

/-! ### Remote-drift reconciliation (`Project._status_remotes`)

The interactive `ask` calls are modelled by a stream of boolean answers
(`true` = the user answered `'y'`), indexed by the order in which questions
are asked.  The findings are the classification lines printed via
`OUT.critical`, the actions are the `git remote ...` subcommands executed on
acceptance.

Python's `set(...) - set(...)` differences have unspecified iteration order;
`dict()` of such a difference keeps one entry per name (names were dict keys
already).  We keep the insertion order of the minuend, which is the only
order-determinate choice; none of the claims depends on the order of these
collections. -/

/-- One reconciliation finding (one `OUT.critical` classification line). -/
inductive Finding where
  | renamedRemote (name : String)
  | changedUrl (name : String)
  | extraRemote (name : String)
  | misconfiguredRemote (name : String)
  | missingRemote (name : String)
deriving DecidableEq, Repr

/-- One repair action (`git remote rename/set-url/remove/add ...`). -/
inductive GitAction where
  | renameRemote (old new : String)
  | setUrl (name url : String)
  | removeRemote (name : String)
  | addRemote (name url : String)
deriving DecidableEq, Repr

/-- Result of a `_status_remotes` run. -/
structure RemotesReport where
  findings : List Finding
  actions : List GitAction
deriving DecidableEq, Repr

/-- The loop `for name, url in extra_remotes.items()`.  State: the mutable
`missing_remotes` dict, the question counter.  Returns the findings and
actions of the loop, the final `missing_remotes` and question counter.
The source tests `url in missing_remotes.values()` and then recomputes the
matching key with `[k for k, v in missing_remotes.items() if url == v][0]`;
both are expressed below by the same `find?`, which is `some` exactly when
the membership test succeeds. -/
def statusRemotesExtraLoop (remotesInConfig : List (String × String))
    (extraRemoteNames : List String) (remotes : List (String × String))
    (answers : Nat → Bool) :
    List (String × String) → List (String × String) → Nat →
    Except String (List Finding × List GitAction × List (String × String) × Nat)
  | [], missing, q => .ok ([], [], missing, q)
  | (name, url) :: rest, missing, q =>
    match missing.find? fun p => p.2 == url with
    | some (newName, _) =>
      -- renamed remote: offer to rename `name` to `new_name`
      let ans := answers q
      let missing1 := if ans then missing.filter (fun p => p.1 != newName) else missing
      let acts : List GitAction := if ans then [.renameRemote name newName] else []
      match statusRemotesExtraLoop remotesInConfig extraRemoteNames remotes answers
          rest missing1 (q + 1) with
      | .error e => .error e
      | .ok (fs, as0, m, q2) => .ok (.renamedRemote name :: fs, acts ++ as0, m, q2)
    | none =>
      if missing.any fun p => p.1 == name then
        -- url changed for remote `name`: offer remotes_in_config[name]
        match remotesInConfig.lookup name with
        | none => .error "KeyError: remotes_in_config[name]"
        | some configUrl =>
          let ans := answers q
          let missing1 := if ans then missing.filter (fun p => p.1 != name) else missing
          let acts : List GitAction := if ans then [.setUrl name configUrl] else []
          match statusRemotesExtraLoop remotesInConfig extraRemoteNames remotes answers
              rest missing1 (q + 1) with
          | .error e => .error e
          | .ok (fs, as0, m, q2) => .ok (.changedUrl name :: fs, acts ++ as0, m, q2)
      else if !(extraRemoteNames.contains name) then
        -- extra remote that is not genuinely extra by name: misconfigured
        match statusRemotesExtraLoop remotesInConfig extraRemoteNames remotes answers
            rest missing q with
        | .error e => .error e
        | .ok (fs, as0, m, q2) =>
          .ok (.extraRemote name :: .misconfiguredRemote name :: fs, as0, m, q2)
      else
        -- extra remote: offer to remove it
        let ans := answers q
        let acts : List GitAction := if ans then [.removeRemote name] else []
        match statusRemotesExtraLoop remotesInConfig extraRemoteNames remotes answers
            rest missing (q + 1) with
        | .error e => .error e
        | .ok (fs, as0, m, q2) => .ok (.extraRemote name :: fs, acts ++ as0, m, q2)

/-- The loop `for name, url in missing_remotes.items()`: report each missing
remote, and offer to add it (with the raw configured URL `self.remotes[name]`)
unless its name is not genuinely missing, in which case it is reported as
misconfigured with no offer. -/
def statusRemotesMissingLoop (projRemotes : List (String × String))
    (missingRemoteNames : List String) (answers : Nat → Bool) :
    List (String × String) → Nat →
    Except String (List Finding × List GitAction)
  | [], _ => .ok ([], [])
  | (name, _url) :: rest, q =>
    if !(missingRemoteNames.contains name) then
      match statusRemotesMissingLoop projRemotes missingRemoteNames answers rest q with
      | .error e => .error e
      | .ok (fs, as0) =>
        .ok (.missingRemote name :: .misconfiguredRemote name :: fs, as0)
    else
      match projRemotes.lookup name with
      | none => .error "KeyError: self.remotes[name]"
      | some rawUrl =>
        let ans := answers q
        let acts : List GitAction := if ans then [.addRemote name rawUrl] else []
        match statusRemotesMissingLoop projRemotes missingRemoteNames answers
            rest (q + 1) with
        | .error e => .error e
        | .ok (fs, as0) => .ok (.missingRemote name :: fs, acts ++ as0)

/-- `Project._status_remotes`.  `projRemotes` is the project configuration
(`self.remotes`), `repoRemotes` the repository's remotes with their URL
lists (`self.repo.remotes`, each remote exposing `urls`). -/
def statusRemotes (projRemotes : List (String × String))
    (repoRemotes : List (String × List String)) (answers : Nat → Bool) :
    Except String RemotesReport :=
  -- assert all(len(list(v.urls)) == 1 for v in self.repo.remotes.values())
  if !(repoRemotes.all fun p => p.2.length == 1) then
    .error "assertion failed: a remote must have exactly one URL"
  else
    let remoteNamesInConfig := projRemotes.map Prod.fst
    let remoteNames := repoRemotes.map Prod.fst
    let remotesInConfig := projRemotes.map fun p => (p.1, normalizeUrl p.2)
    -- tuple(v.urls)[0]: the single URL (the assert above rules out []).
    let remotes := repoRemotes.map fun p => (p.1, normalizeUrl (p.2.headD ""))
    let extraRemoteNames := remoteNames.filter fun n => !(remoteNamesInConfig.contains n)
    let missingRemoteNames := remoteNamesInConfig.filter fun n => !(remoteNames.contains n)
    let extraRemotes := remotes.filter fun p => !(remotesInConfig.contains p)
    let missingRemotes := remotesInConfig.filter fun p => !(remotes.contains p)
    if extraRemotes.isEmpty && missingRemotes.isEmpty then
      .ok { findings := [], actions := [] }
    else
      match statusRemotesExtraLoop remotesInConfig extraRemoteNames remotes answers
          extraRemotes missingRemotes 0 with
      | .error e => .error e
      | .ok (fs1, as1, missingLeft, q1) =>
        match statusRemotesMissingLoop projRemotes missingRemoteNames answers
            missingLeft q1 with
        | .error e => .error e
        | .ok (fs2, as2) => .ok { findings := fs1 ++ fs2, actions := as1 ++ as2 }

/-! ### Checkout selector (`Project._prepare_checkout_list` / `Project.checkout`)

The selector reads, besides the snapshot, the tag list of the underlying
repository (`self.repo._repo.tags`, a list of `TagReference` objects that we
record by name).  The key alphabet is the exact string literal of
`Project.checkout`. -/

/-- The fixed selector-key alphabet of `Project.checkout` (89 characters):
digits, lowercase letters without `n`/`y`, uppercase letters without
`N`/`Q`/`Y`, then punctuation. -/
def checkoutKeys : List Char :=
  String.toList "1234567890abcdefghijklmopqrstuvwxz"
    ++ String.toList "ABCDEFGHIJKLMOPRSTUVWXZ"
    ++ String.toList ",.!?*&^%$#@;:"
    ++ [Char.ofNat 39, Char.ofNat 34]
    ++ String.toList "/|"
    ++ [Char.ofNat 92]
    ++ String.toList "()[]<>"
    ++ [Char.ofNat 123, Char.ofNat 125]
    ++ String.toList "-_+=~"
    ++ [Char.ofNat 96]

/-- `_SPECIAL_REFS = {'HEAD', 'FETCH_HEAD'}` — a set of Python strings. -/
def specialRefs : List String := ["HEAD", "FETCH_HEAD"]

/-- The Python value iterated by `for remote, branch in
self.repo.remote_branches.items()`: `remote` is the KEY tuple
`(remote_name, branch_name)` and `branch` is the VALUE, a `git.Reference`.
The pair `(remote, branch)` is therefore a 2-tuple whose first element is
itself a tuple and whose second is a reference. -/
def remoteItemPyVal (rb : (String × String) × String) : PyVal :=
  .ptup2 (.ptup2 (.pstr rb.1.1) (.pstr rb.1.2)) (.pref rb.2)

/-- The filter of `_prepare_checkout_list`:
`(remote, branch) not in remote_tracking_branches and branch not in
_SPECIAL_REFS`, where `remote_tracking_branches =
set(self.repo.tracking_branches.values())` contains `None`s and three-field
`TrackingBranchTuple`s. -/
def remoteBranchKeep (d : RepoData) (rb : (String × String) × String) : Bool :=
  !((d.trackingBranches.map fun p => trackingPyVal p.2).contains (remoteItemPyVal rb))
    && !(specialRefs.any fun s => PyVal.pref rb.2 == PyVal.pstr s)

/-- The value checked out for a qualifying remote-branch item: the source
tests `branch in self.repo.branches` (a `git.Reference` against the dict of
branch-name strings) and renders `f'{remote}/{branch}'` when it holds, else
uses `branch` (the reference) itself. -/
def remoteTarget (d : RepoData) (rb : (String × String) × String) : PyVal :=
  if (d.branches.map PyVal.pstr).contains (.pref rb.2) then
    .pstr (pyStr (.ptup2 (.pstr rb.1.1) (.pstr rb.1.2)) ++ "/" ++ pyStr (.pref rb.2))
  else .pref rb.2

/-- Menu entry for a qualifying remote-branch item; the comment is
`f'based on {remote}'` with `remote` the key tuple. -/
def remoteEntry (d : RepoData) (rb : (String × String) × String) :
    PyVal × Option String :=
  (remoteTarget d rb,
    some ("based on " ++ pyStr (.ptup2 (.pstr rb.1.1) (.pstr rb.1.2))))

/-- The candidate entries in assignment order: local branches (no comment),
local tags (comment `tag`), qualifying remote branches. -/
def checkoutEntries (d : RepoData) (tags : List String) :
    List (PyVal × Option String) :=
  (d.branches.map fun b => (PyVal.pstr b, (none : Option String)))
    ++ (tags.map fun t => (PyVal.pref t, some "tag"))
    ++ ((d.remoteBranches.filter (remoteBranchKeep d)).map (remoteEntry d))

/-- The `RuntimeError` raised when there are more candidates than keys; its
message lists the key alphabet, the candidate count, the branch lists and
the tag list. -/
structure CheckoutKeysError where
  keysCount : Nat
  candidatesCount : Nat
  localBranches : List String
  remoteNontrackingBranches : List ((String × String) × String)
  localTags : List String
deriving DecidableEq, Repr

/-- Mark the first menu entry whose revision equals the active branch with a
`no change` comment (`f'{comment}, no change'` when a comment exists). -/
def annotateActive (active : PyVal) :
    List (Char × PyVal × Option String) → List (Char × PyVal × Option String)
  | [] => []
  | (k, t, c) :: rest =>
    if t = active then
      (k, t,
        some (match c with
              | some s => s ++ ", no change"
              | none => "no change")) :: rest
    else (k, t, c) :: annotateActive active rest

/-- `Project._prepare_checkout_list`. -/
def prepareCheckoutList (d : RepoData) (tags : List String) :
    Except CheckoutKeysError (List (Char × PyVal × Option String)) :=
  let localBranches := d.branches
  let remoteNontrackingBranches := d.remoteBranches.filter (remoteBranchKeep d)
  let allCandidatesCount :=
    localBranches.length + remoteNontrackingBranches.length + tags.length
  if allCandidatesCount > checkoutKeys.length then
    .error
      { keysCount := checkoutKeys.length
        candidatesCount := allCandidatesCount
        localBranches := localBranches
        remoteNontrackingBranches := remoteNontrackingBranches
        localTags := tags }
  else
    let revisions := checkoutKeys.zip (checkoutEntries d tags)
    match d.activeBranch with
    | none => .ok (revisions ++ [('n', .pstr "---", some "keep no branch/tag")])
    | some a => .ok (annotateActive (.pstr a) revisions)

/-- The Python value of `self.repo.active_branch` (a `str` or `None`). -/
def activePyVal : Option String → PyVal
  | none => .pnone
  | some a => .pstr a

/-- The tail of `Project.checkout` after the menu is shown: answer `'n'`
cancels; an answer resolving to the active branch performs no checkout;
otherwise `git checkout <target>` runs on the resolved target. -/
def checkoutTarget (revisions : List (Char × PyVal × Option String))
    (active : Option String) (answer : Char) : Option PyVal :=
  if answer = 'n' then none
  else
    match revisions.find? fun e => e.1 == answer with
    | none => none  -- unreachable: `ask` only accepts assigned keys and 'n'
    | some (_, target, _) =>
      if target = activePyVal active then none else some target

/-! ### Branch-divergence reporting (`Project._print_log`, `Project._status_branch`) -/

/-- The `'... skipped %i commits'` line. -/
def elisionLine (n : Nat) : String := "... skipped " ++ toString n ++ " commits"

/-- Python `ref_log[-tail_count:]`: the last `tail_count` lines, or the whole
list when `tail_count` is zero (Python's `-0` slice). -/
def lastLines (l : List String) (tailCount : Nat) : List String :=
  if tailCount = 0 then l else l.drop (l.length - tailCount)

/-- The lines printed by `Project._print_log` for the log itself (without the
optional header): everything when the log has at most
`head_count + tail_count + 1` lines, else the first `head_count` lines, one
elision line counting the skipped middle, and the last `tail_count` lines. -/
def printLogBody (refLog : List String) (headCount tailCount : Nat) :
    List String :=
  if refLog.length > headCount + tailCount + 1 then
    refLog.take headCount
      ++ [elisionLine (refLog.length - headCount - tailCount)]
      ++ lastLines refLog tailCount
  else refLog

/-- `Project._print_log` including the optional header line. -/
def printLog (refLog : List String) (printedHeader : String)
    (headCount tailCount : Nat) : List String :=
  (if printedHeader ≠ "" then [printedHeader] else [])
    ++ printLogBody refLog headCount tailCount

/-- `Project._status_branch` for the active branch.  `revParseOk tb` tells
whether `git rev-parse tb` succeeds, `gitLog x y` is the oneline log of the
range `x..y` (`Project._get_log`).  Output: the printed lines; an
`Except.error` is an uncaught Python exception.  Note
`'/'.join(tracking_branch_data)` joins the THREE fields of
`TrackingBranchTuple`, the last of which is a `git.Reference`, not a `str`. -/
def statusBranch (d : RepoData) (path : String) (revParseOk : String → Bool)
    (gitLog : String → String → List String) : Except String (List String) :=
  match d.activeBranch with
  | none =>
    .ok ["cannot diagnose branch status in " ++ dquote ++ path ++ dquote
          ++ " -- not on any branch"]
  | some branch =>
    match d.trackingBranches.lookup branch with
    | none => .error "KeyError: self.repo.tracking_branches[branch]"
    | some none =>
      .ok ["cannot diagnose branch status in " ++ dquote ++ path ++ dquote
            ++ " -- current branch has no tracking branch"]
    | some (some t) =>
      match pyStrJoin "/" [.pstr t.1, .pstr t.2.1, .pref t.2.2] with
      | .error e => .error e
      | .ok trackingBranch =>
        if !(revParseOk trackingBranch) then
          .ok ["cannot diagnose branch status in " ++ dquote ++ path ++ dquote
                ++ " -- tracking branch of the current branch does not exist"]
        else
          let notPushedLog := gitLog trackingBranch branch
          let out1 :=
            if !notPushedLog.isEmpty then
              printLog notPushedLog
                ("!! not pushed commits from " ++ dquote ++ branch ++ dquote
                  ++ " to " ++ dquote ++ trackingBranch ++ dquote ++ " in "
                  ++ dquote ++ path ++ dquote ++ ":") 10 10
            else []
          let notMergedLog := gitLog branch trackingBranch
          let out2 :=
            if !notMergedLog.isEmpty then
              printLog notMergedLog
                ("!! not merged commits from " ++ dquote ++ trackingBranch
                  ++ dquote ++ " to " ++ dquote ++ branch ++ dquote ++ " in "
                  ++ dquote ++ path ++ dquote ++ ":") 10 10
            else []
          .ok (out1 ++ out2)

/-! ### Fetch (`Project.fetch` / `Project._determine_remotes_to_fetch`) -/

/-- `Project._determine_remotes_to_fetch`.  The `try` block catches only
`KeyError` (active branch absent from the tracking map) and `TypeError`
(tracking value `None`, which cannot be unpacked); when a tracking branch
exists, `remote_name, _ = <TrackingBranchTuple>` unpacks a THREE-field tuple
into two names and raises an uncaught `ValueError`. -/
def determineRemotesToFetch (d : RepoData) : Except String (List String) :=
  match d.activeBranch with
  | none =>
    -- warning: not on any branch, fetching all remotes
    .ok (d.remotes.map Prod.fst)
  | some a =>
    match d.trackingBranches.lookup a with
    | none =>
      -- KeyError caught: branch not configured, fetching all remotes
      .ok (d.remotes.map Prod.fst)
    | some none =>
      -- TypeError caught: no tracking branch, fetching all remotes
      .ok (d.remotes.map Prod.fst)
    | some (some _) =>
      .error "ValueError: too many values to unpack (expected 2)"

/-- The remote-name selection of `Project.fetch`: all remotes when the
`all_remotes` flag is set, else `_determine_remotes_to_fetch`. -/
def fetchRemoteNames (d : RepoData) (allRemotes : Bool) :
    Except String (List String) :=
  if allRemotes then .ok (d.remotes.map Prod.fst)
  else determineRemotesToFetch d

/-! ### Batch orchestration (`Runtime.execute_git_command`) and error wrapping -/

/-- The Python exceptions relevant to the orchestrator loop. -/
inductive PyExc where
  | valueError (msg : String)
  | runtimeError (msg : String)
deriving DecidableEq, Repr

/-- The wrapper of `Project._fetch_remote`: a `git.GitCommandError` is
re-raised as `ValueError` with the remote name, its URL and the project
name. -/
def fetchRemoteWrappedError (remoteName url projectName : String) : PyExc :=
  .valueError ("error while fetching remote " ++ dquote ++ remoteName ++ dquote
    ++ " (" ++ dquote ++ url ++ dquote ++ ") in " ++ dquote ++ projectName
    ++ dquote)

/-- The wrapper of `Project.collect_garbage`: a `git.GitCommandError` is
re-raised as `ValueError` naming the project path. -/
def collectGarbageWrappedError (path : String) : PyExc :=
  .valueError ("error while collecting garbage in " ++ dquote ++ path ++ dquote)

/-- `Project.collect_garbage` on an initialised project: runs
`git gc --aggressive --prune`; on `git.GitCommandError` raises the wrapped
`ValueError`. -/
def collectGarbage (gitGcFails : Bool) (path : String) : Except PyExc Unit :=
  if gitGcFails then .error (collectGarbageWrappedError path) else .ok ()

/-- Result of running `Runtime.execute_git_command` over the filtered
projects: how many projects the loop reached, how many `RuntimeError`s it
logged (and kept going), and the exception that escaped the loop, if any. -/
structure BatchResult where
  attemptedCount : Nat
  runtimeErrorsLogged : Nat
  escaped : Option PyExc
deriving DecidableEq, Repr

/-- `Runtime.execute_git_command`: each filtered project's command either
succeeds (`none`) or raises (`some exc`).  The `except RuntimeError` handler
logs and continues; any other exception escapes the loop and aborts the
batch. -/
def executeGitCommand : List (Option PyExc) → BatchResult
  | [] => { attemptedCount := 0, runtimeErrorsLogged := 0, escaped := none }
  | outcome :: rest =>
    match outcome with
    | none =>
      let r := executeGitCommand rest
      { r with attemptedCount := r.attemptedCount + 1 }
    | some (.runtimeError _) =>
      let r := executeGitCommand rest
      { attemptedCount := r.attemptedCount + 1
        runtimeErrorsLogged := r.runtimeErrorsLogged + 1
        escaped := r.escaped }
    | some (.valueError m) =>
      { attemptedCount := 1, runtimeErrorsLogged := 0
        escaped := some (.valueError m) }

/-! ### Spec-side definition for the checkout-overflow claim

The claim counts the remote branches that QUALIFY for the menu in the sense
of the specification: not the tracking target of any local branch and not
one of the special refs.  This definition follows the words of the spec and
is compared against the implementation's count. -/

/-- Modelled from the spec (checkout selector, step 1): remote branches that
are not a tracking target of any local branch and are not `HEAD` or
`FETCH_HEAD`. -/
def specQualifyingRemoteBranches (d : RepoData) :
    List ((String × String) × String) :=
  d.remoteBranches.filter fun rb =>
    !(d.trackingBranches.any fun p =>
        match p.2 with
        | some t => t.1 == rb.1.1 && t.2.1 == rb.1.2
        | none => false)
      && !(rb.1.2 == "HEAD") && !(rb.1.2 == "FETCH_HEAD")

/-! ## Theorems settling the claims -/

/-- Componentwise computation of `BEq` on pairs, used to reduce the pair
memberships of `_status_remotes`. -/
@[simp]
theorem prod_beq_mk {α β : Type} [BEq α] [BEq β] (a c : α) (b d : β) :
    ((a, b) == (c, d)) = (a == c && b == d) := rfl

/-- C1 (counterexample): with configured remotes `{a: U1, b: U2}` and actual
remotes `{a: U2}` — the actual URL of `a` literally equal to the configured
URL of `b`, as the claim states — the engine classifies `a` as a RENAMED
remote (offering the rename `a → b`), not as a changed URL, and after the
accepted rename it reports `a` (not `b`) as missing plus misconfigured;
there is no changed-URL finding for `a` and no missing-remote finding for
`b`. -/
theorem c1_counterexample :
    statusRemotes [("a", "U1"), ("b", "U2")] [("a", ["U2"])] (fun _ => true) =
      .ok { findings := [.renamedRemote "a", .missingRemote "a",
                         .misconfiguredRemote "a"],
            actions := [.renameRemote "a" "b"] } ∧
    ∀ report,
      statusRemotes [("a", "U1"), ("b", "U2")] [("a", ["U2"])] (fun _ => true) =
        .ok report →
      Finding.changedUrl "a" ∉ report.findings ∧
        Finding.missingRemote "b" ∉ report.findings := by
  refine ⟨rfl, ?_⟩
  intro report h
  rw [show statusRemotes [("a", "U1"), ("b", "U2")] [("a", ["U2"])]
        (fun _ => true) =
      .ok { findings := [.renamedRemote "a", .missingRemote "a",
                         .misconfiguredRemote "a"],
            actions := [.renameRemote "a" "b"] } from rfl] at h
  cases h
  exact ⟨by decide, by decide⟩

/-- C1 (amended): with configured remotes `{a: U1, b: U2}` and actual
remotes `{a: U3}` where the normalized `U3` differs from the normalized `U1`
and `U2`, and with every offered repair accepted, the engine produces
exactly one changed-URL finding for `a` (setting its URL to the configured,
normalized `U1`) plus exactly one missing-remote finding for `b` (adding it
with its raw configured URL), and no extra/missing double-count for `a`. -/
theorem c1_amended (u1 u2 u3 : String)
    (h1 : normalizeUrl u3 ≠ normalizeUrl u1)
    (h2 : normalizeUrl u3 ≠ normalizeUrl u2) :
    statusRemotes [("a", u1), ("b", u2)] [("a", [u3])] (fun _ => true) =
      .ok { findings := [.changedUrl "a", .missingRemote "b"],
            actions := [.setUrl "a" (normalizeUrl u1), .addRemote "b" u2] } := by
  have hb1 : (normalizeUrl u3 == normalizeUrl u1) = false := by
    simpa using h1
  have hb2 : (normalizeUrl u3 == normalizeUrl u2) = false := by
    simpa using h2
  have hb1s : (normalizeUrl u1 == normalizeUrl u3) = false := by
    simpa using (Ne.symm h1)
  have hb2s : (normalizeUrl u2 == normalizeUrl u3) = false := by
    simpa using (Ne.symm h2)
  have hab : (("a" : String) == "b") = false := by decide
  have hba : (("b" : String) == "a") = false := by decide
  simp [statusRemotes, statusRemotesExtraLoop, statusRemotesMissingLoop,
    List.lookup, List.find?, List.filter, List.any, List.all, List.contains,
    List.elem, hb1, hb2, hb1s, hb2s, hab, hba]

/-- C1 (amended, witness). -/
theorem c1_amended_witness :
    (normalizeUrl "U3" ≠ normalizeUrl "U1" ∧
      normalizeUrl "U3" ≠ normalizeUrl "U2") ∧
    statusRemotes [("a", "U1"), ("b", "U2")] [("a", ["U3"])] (fun _ => true) =
      .ok { findings := [.changedUrl "a", .missingRemote "b"],
            actions := [.setUrl "a" (normalizeUrl "U1"),
                        .addRemote "b" "U2"] } :=
  ⟨⟨by decide, by decide⟩, c1_amended "U1" "U2" "U3" (by decide) (by decide)⟩

/-- C2: with configured `{origin: U}` and actual `{mirror: U}` (any URL) and
the offered repair accepted, the engine produces exactly one renamed-remote
finding, the offered rename runs from the actual name `mirror` to the
configured name `origin`, and no missing-remote or extra-remote finding is
reported. -/
theorem c2_renamed_remote (u : String) :
    statusRemotes [("origin", u)] [("mirror", [u])] (fun _ => true) =
      .ok { findings := [.renamedRemote "mirror"],
            actions := [.renameRemote "mirror" "origin"] } := by
  have hmo : (("mirror" : String) == "origin") = false := by decide
  have hom : (("origin" : String) == "mirror") = false := by decide
  simp [statusRemotes, statusRemotesExtraLoop, statusRemotesMissingLoop,
    List.lookup, List.find?, List.filter, List.any, List.all, List.contains,
    List.elem, hmo, hom]

/-! ### C3: checkout candidates vs. tracking targets and special refs -/

/-- A snapshot with one local branch `master` tracking `origin/master`, and
with `origin/master` and `origin/HEAD` as the remote refs. -/
def snapshotC3 : RepoData :=
  { activeBranch := some "master"
    branches := ["master"]
    trackingBranches := [("master", some ("origin", "master", "origin/master"))]
    remotes := []
    remoteBranches := [(("origin", "master"), "origin/master"),
                       (("origin", "HEAD"), "origin/HEAD")] }

/-- C3: the checkout-candidate list is NOT restricted to non-tracking,
non-special remote branches.  For `snapshotC3`, `origin/master` is the
tracking target of the only local branch and `origin/HEAD` is a special
ref, yet both receive menu entries: the membership test compares the pair
`((remote, branch), reference)` against three-field `TrackingBranchTuple`s
(never equal) and the reference object against the strings `'HEAD'` /
`'FETCH_HEAD'` (never equal), so no remote branch is ever excluded,
contradicting the docstring of `Project.checkout` (`non-tracking branches
on all remotes`). -/
theorem c3_menu_includes_tracking_and_special :
    ∃ cmt2 cmt3,
      prepareCheckoutList snapshotC3 [] =
        .ok [('1', .pstr "master", some "no change"),
             ('2', .pref "origin/master", cmt2),
             ('3', .pref "origin/HEAD", cmt3)] ∧
      snapshotC3.trackingBranches.lookup "master" =
        some (some ("origin", "master", "origin/master")) :=
  ⟨_, _, rfl, rfl⟩

/-! ### C6: the log printer and the branch-divergence check -/

/-- A 23-line commit log. -/
def logC6long : List String :=
  (List.range 23).map fun i => "commit " ++ toString i

/-- A 21-line commit log. -/
def logC6short : List String :=
  (List.range 21).map fun i => "commit " ++ toString i

/-- A snapshot whose active branch `master` has the tracking branch
`origin/master`. -/
def snapshotC6 : RepoData :=
  { activeBranch := some "master"
    branches := ["master"]
    trackingBranches := [("master", some ("origin", "master", "origin/master"))]
    remotes := []
    remoteBranches := [(("origin", "master"), "origin/master")] }

/-- General form of the short case of `_print_log`: a log of at most
`head + tail + 1` lines is printed in full. -/
theorem printLogBody_short (refLog : List String) (headCount tailCount : Nat)
    (h : refLog.length ≤ headCount + tailCount + 1) :
    printLogBody refLog headCount tailCount = refLog := by
  simp [printLogBody, Nat.not_lt.mpr h]

/-- General form of the long case of `_print_log` with the default counts:
more than 21 lines print as the first 10, one elision line counting
`length - 20` skipped commits, and the last 10. -/
theorem printLogBody_long (refLog : List String) (h : refLog.length > 21) :
    printLogBody refLog 10 10 =
      refLog.take 10 ++ [elisionLine (refLog.length - 20)]
        ++ refLog.drop (refLog.length - 10) := by
  have h10 : ¬(10 = 0) := by decide
  simp only [printLogBody, lastLines, if_pos h, if_neg h10]
  have : refLog.length - 10 - 10 = refLog.length - 20 := by omega
  simp [this]

/-- C6: on a 23-line log the printer emits exactly the first 10 lines, one
elision line counting `23 - 20 = 3` skipped commits, and the last 10 lines;
a 21-line log is printed in full; but on a branch that HAS a tracking
branch, `_status_branch` never reaches the point of reporting zero
divergence: `'/'.join(tracking_branch_data)` joins the three fields of
`TrackingBranchTuple`, whose last field is a `git.Reference` rather than a
`str`, so a `TypeError` is raised even when both range logs are empty. -/
theorem c6_print_log_and_status_branch :
    printLogBody logC6long 10 10 =
      logC6long.take 10 ++ [elisionLine (logC6long.length - 20)]
        ++ logC6long.drop 13 ∧
    printLogBody logC6short 10 10 = logC6short ∧
    statusBranch snapshotC6 "/repo" (fun _ => true) (fun _ _ => []) =
      .error "TypeError: sequence item: expected str instance" :=
  ⟨rfl, rfl, rfl⟩

/-! ### C7: every local branch has a tracking-map entry after refresh -/

/-- Keys are preserved when a pairing function is mapped over an association
list: any key of `l` is a key of `l.map (fun p => (p.1, f p))`. -/
theorem exists_mem_map_pair {α β : Type} (f : String × α → β)
    (l : List (String × α)) (n : String) (hn : n ∈ l.map Prod.fst) :
    ∃ v, (n, v) ∈ l.map fun p => (p.1, f p) := by
  induction l with
  | nil => simp at hn
  | cons p rest ih =>
    rcases List.mem_cons.mp hn with h | h
    · exact ⟨f p, by simp [h.symm]⟩
    · rcases ih h with ⟨v, hv⟩
      exact ⟨v, List.mem_cons_of_mem _ hv⟩

/-- C7: after every successful `refresh()`, every branch name in `branches`
has a (possibly `None`-valued) entry in `tracking_branches`. -/
theorem c7_tracking_covers_branches (g : GitRepo) (d : RepoData)
    (h : refresh g = .ok d) (n : String) (hn : n ∈ d.branches) :
    ∃ v, (n, v) ∈ d.trackingBranches := by
  unfold refresh at h
  split at h
  · exact absurd h (by simp)
  · cases h
    exact
      exists_mem_map_pair
        (fun p => p.2.map fun t => ((partitionSlash t).1, (partitionSlash t).2, t))
        (refreshBranchPairs g) n hn

/-- A concrete repository for the refresh witnesses: two local branches
(`master` tracking `origin/master`, `devel` untracked) and one remote. -/
def gitRepoWit : GitRepo :=
  { branchList := [{ name := "master", trackingRef := some "origin/master" },
                   { name := "devel", trackingRef := none }]
    headDetached := false
    headName := "master"
    headTrackingRef := some "origin/master"
    remoteList := [{ name := "origin"
                     urls := ["https:/example.com/repo.git"]
                     refNames := ["origin/master", "origin/HEAD"] }] }

/-- The snapshot `refresh` computes for `gitRepoWit`. -/
def repoDataWit : RepoData :=
  { activeBranch := some "master"
    branches := ["master", "devel"]
    trackingBranches := [("master", some ("origin", "master", "origin/master")),
                         ("devel", none)]
    remotes := [("origin",
                 { name := "origin"
                   urls := ["https:/example.com/repo.git"]
                   refNames := ["origin/master", "origin/HEAD"] })]
    remoteBranches := [(("origin", "master"), "origin/master"),
                       (("origin", "HEAD"), "origin/HEAD")] }

/-- C7 (witness). -/
theorem c7_tracking_covers_branches_witness :
    refresh gitRepoWit = .ok repoDataWit ∧ "devel" ∈ repoDataWit.branches ∧
    ∃ v, ("devel", v) ∈ repoDataWit.trackingBranches :=
  ⟨rfl, by decide,
    c7_tracking_covers_branches gitRepoWit repoDataWit rfl "devel" (by decide)⟩

/-! ### C8: refresh is idempotent -/

/-- C8: refreshing a snapshot twice against the same underlying repository
state leaves every snapshot field identical to its value after the first
refresh (`refresh` overwrites all fields from the repository and reads no
prior field). -/
theorem c8_refresh_idempotent (g : GitRepo) (d d2 : RepoData)
    (h : refreshFrom g d = .ok d2) :
    ∃ d3, refreshFrom g d2 = .ok d3 ∧
      d3.activeBranch = d2.activeBranch ∧ d3.branches = d2.branches ∧
      d3.trackingBranches = d2.trackingBranches ∧ d3.remotes = d2.remotes ∧
      d3.remoteBranches = d2.remoteBranches :=
  ⟨d2, by simpa [refreshFrom] using h, rfl, rfl, rfl, rfl, rfl⟩

/-- C8 (witness). -/
theorem c8_refresh_idempotent_witness :
    refreshFrom gitRepoWit repoDataWit = .ok repoDataWit ∧
    ∃ d3, refreshFrom gitRepoWit repoDataWit = .ok d3 ∧
      d3.activeBranch = repoDataWit.activeBranch ∧
      d3.branches = repoDataWit.branches ∧
      d3.trackingBranches = repoDataWit.trackingBranches ∧
      d3.remotes = repoDataWit.remotes ∧
      d3.remoteBranches = repoDataWit.remoteBranches :=
  ⟨rfl, c8_refresh_idempotent gitRepoWit repoDataWit repoDataWit rfl⟩

/-! ### C9: batch behaviour on per-project failures -/

/-- `true` exactly for a raised `ValueError` (the class the wrappers use,
which the orchestrator's `except RuntimeError` does not catch). -/
def isValueError : Option PyExc → Bool
  | some (.valueError _) => true
  | _ => false

/-- C9 (counterexample): a two-project batch in which the first project's
`git gc` fails.  The wrapped `ValueError` escapes
`Runtime.execute_git_command` (which catches only `RuntimeError`), so the
loop stops after the first project and the second is never executed —
the batch does not continue. -/
theorem c9_counterexample :
    (executeGitCommand [some (collectGarbageWrappedError "repo1"), none]).attemptedCount = 1 ∧
    (executeGitCommand [some (collectGarbageWrappedError "repo1"), none]).escaped =
      some (collectGarbageWrappedError "repo1") ∧
    ([some (collectGarbageWrappedError "repo1"), none] : List (Option PyExc)).length = 2 :=
  ⟨rfl, rfl, rfl⟩

/-- C9 (amended): git-tool failures in `collect_garbage` (and likewise in
`_fetch_remote`) are wrapped with operation context and re-raised as
`ValueError`; the orchestrator's handler catches only `RuntimeError` — a
batch whose failures are all `RuntimeError`s runs every project to the end,
while the first raised `ValueError` escapes and aborts the batch right
after the project that raised it. -/
theorem c9_amended (outcomes : List (Option PyExc)) :
    (∀ p, ∃ m, collectGarbage true p = .error (.valueError m)) ∧
    ((∀ e ∈ outcomes, isValueError e = false) →
      (executeGitCommand outcomes).attemptedCount = outcomes.length ∧
      (executeGitCommand outcomes).escaped = none) ∧
    (∀ (k : Nat) (m : String) (rest : List (Option PyExc)),
      outcomes = List.replicate k none ++ some (.valueError m) :: rest →
      (executeGitCommand outcomes).attemptedCount = k + 1 ∧
      (executeGitCommand outcomes).escaped = some (.valueError m)) := by
  refine ⟨fun p => ⟨_, rfl⟩, ?_, ?_⟩
  · intro h
    induction outcomes with
    | nil => exact ⟨rfl, rfl⟩
    | cons o rest ih =>
      have ho := h o (List.mem_cons_self o rest)
      have hrest := fun e he => h e (List.mem_cons_of_mem o he)
      rcases ih hrest with ⟨h1, h2⟩
      match o, ho with
      | none, _ => simp [executeGitCommand, h1, h2]
      | some (.runtimeError m), _ => simp [executeGitCommand, h1, h2]
      | some (.valueError m), ho => simp [isValueError] at ho
  · intro k m rest hout
    subst hout
    induction k with
    | zero => exact ⟨rfl, rfl⟩
    | succ k ih =>
      rcases ih with ⟨h1, h2⟩
      refine ⟨?_, ?_⟩
      · simpa [executeGitCommand, List.replicate_succ] using h1
      · simpa [executeGitCommand, List.replicate_succ] using h2

/-- C9 (amended, witness). -/
theorem c9_amended_witness :
    ((executeGitCommand [some (.runtimeError "boom"), none]).attemptedCount = 2 ∧
      (executeGitCommand [some (.runtimeError "boom"), none]).escaped = none) ∧
    ((executeGitCommand [none, some (.valueError "bang"), none]).attemptedCount = 2 ∧
      (executeGitCommand [none, some (.valueError "bang"), none]).escaped =
        some (.valueError "bang")) :=
  ⟨(c9_amended [some (.runtimeError "boom"), none]).2.1 (by decide),
    (c9_amended [none, some (.valueError "bang"), none]).2.2 1 "bang" [none]
      (by decide)⟩

/-! ### C10: fetch-remote determination -/

/-- A remote for the fetch snapshots. -/
def originRemote : GitRemote :=
  { name := "origin", urls := ["https:/example.com/repo.git"]
    refNames := ["origin/master"] }

/-- A second remote for the fetch snapshots. -/
def mirrorRemote : GitRemote :=
  { name := "mirror", urls := ["https:/example.org/repo.git"]
    refNames := ["mirror/master"] }

/-- Fetch snapshot: not on any branch. -/
def snapshotFetchDetached : RepoData :=
  { activeBranch := none
    branches := []
    trackingBranches := []
    remotes := [("origin", originRemote), ("mirror", mirrorRemote)]
    remoteBranches := [] }

/-- Fetch snapshot: active branch absent from the tracking map
(`KeyError`). -/
def snapshotFetchUnconfigured : RepoData :=
  { activeBranch := some "master"
    branches := ["master"]
    trackingBranches := []
    remotes := [("origin", originRemote), ("mirror", mirrorRemote)]
    remoteBranches := [] }

/-- Fetch snapshot: active branch has no tracking branch (`TypeError`). -/
def snapshotFetchNoTracking : RepoData :=
  { activeBranch := some "master"
    branches := ["master"]
    trackingBranches := [("master", none)]
    remotes := [("origin", originRemote), ("mirror", mirrorRemote)]
    remoteBranches := [] }

/-- Fetch snapshot: active branch tracks `origin/master`. -/
def snapshotFetchTracking : RepoData :=
  { activeBranch := some "master"
    branches := ["master"]
    trackingBranches := [("master", some ("origin", "master", "origin/master"))]
    remotes := [("origin", originRemote), ("mirror", mirrorRemote)]
    remoteBranches := [(("origin", "master"), "origin/master")] }

/-- C10: without the all-remotes flag, `fetch` falls back to all of the
repository's remotes when there is no active branch, when the active branch
is absent from the tracking map (`KeyError`), and when it has no tracking
branch (`TypeError` on unpacking `None`) — but when the active branch DOES
have a tracking branch, `remote_name, _ = <TrackingBranchTuple>` unpacks a
three-field named tuple into two targets and raises an uncaught
`ValueError` instead of fetching the single tracking remote `origin`. -/
theorem c10_fetch_remote_determination :
    fetchRemoteNames snapshotFetchDetached false = .ok ["origin", "mirror"] ∧
    fetchRemoteNames snapshotFetchUnconfigured false = .ok ["origin", "mirror"] ∧
    fetchRemoteNames snapshotFetchNoTracking false = .ok ["origin", "mirror"] ∧
    fetchRemoteNames snapshotFetchTracking false =
      .error "ValueError: too many values to unpack (expected 2)" :=
  ⟨rfl, rfl, rfl, rfl⟩

/-! ### C4: overflow of the checkout-key alphabet

The implementation's candidate filter compares a 2-tuple `(key, reference)`
against `None`s and 3-field `TrackingBranchTuple`s and a reference against
the special-ref strings, so it keeps every remote branch; in particular it
keeps at least every branch that qualifies in the spec's sense, and the
overflow check therefore fires whenever the spec-side count exceeds the
alphabet. -/

/-- A remote-branch menu item (a pair whose second component is a reference)
never equals any value of `tracking_branches.values()` (`None` or a 3-field
named tuple). -/
theorem remoteItem_not_in_trackingPyVals
    (l : List (String × Option TrackingBranchTuple))
    (rb : (String × String) × String) :
    (l.map fun p => trackingPyVal p.2).contains (remoteItemPyVal rb) = false := by
  induction l with
  | nil => rfl
  | cons p rest ih =>
    rcases p with ⟨n, v⟩
    have hne : (remoteItemPyVal rb == trackingPyVal v) = false := by
      rcases v with _ | ⟨r, br, ref⟩ <;> rfl
    simp only [List.map_cons, List.contains_cons, hne, ih, Bool.false_or]

/-- The filter of `_prepare_checkout_list` keeps every remote branch. -/
theorem remoteBranchKeep_eq_true (d : RepoData)
    (rb : (String × String) × String) : remoteBranchKeep d rb = true := by
  have h1 := remoteItem_not_in_trackingPyVals d.trackingBranches rb
  have h2 : (specialRefs.any fun s => PyVal.pref rb.2 == PyVal.pstr s) = false := rfl
  unfold remoteBranchKeep
  rw [h1, h2]
  rfl

/-- C4: whenever the number of local branches plus spec-qualifying
non-tracking remote branches plus local tags exceeds the 89-key alphabet,
`_prepare_checkout_list` raises the descriptive `RuntimeError` carrying the
key alphabet size, the candidate count and the offending branch and tag
lists, rather than truncating the menu. -/
theorem c4_overflow_error (d : RepoData) (tags : List String)
    (h : d.branches.length + (specQualifyingRemoteBranches d).length
        + tags.length > checkoutKeys.length) :
    ∃ e, prepareCheckoutList d tags = .error e ∧
      e.localBranches = d.branches ∧ e.localTags = tags ∧
      e.remoteNontrackingBranches = d.remoteBranches.filter (remoteBranchKeep d) ∧
      e.keysCount = checkoutKeys.length ∧
      e.candidatesCount > checkoutKeys.length := by
  have hfilter : d.remoteBranches.filter (remoteBranchKeep d) = d.remoteBranches :=
    List.filter_eq_self.mpr fun a _ => remoteBranchKeep_eq_true d a
  have hqual : (specQualifyingRemoteBranches d).length ≤ d.remoteBranches.length :=
    List.length_filter_le _ _
  have hcount :
      d.branches.length + (d.remoteBranches.filter (remoteBranchKeep d)).length
        + tags.length > checkoutKeys.length := by
    rw [hfilter]; omega
  refine
    ⟨{ keysCount := checkoutKeys.length
       candidatesCount :=
         d.branches.length
           + (d.remoteBranches.filter (remoteBranchKeep d)).length + tags.length
       localBranches := d.branches
       remoteNontrackingBranches := d.remoteBranches.filter (remoteBranchKeep d)
       localTags := tags }, ?_, rfl, rfl, rfl, rfl, hcount⟩
  simp only [prepareCheckoutList]
  rw [if_pos hcount]

/-- A snapshot with 92 local branches and nothing else. -/
def snapshotC4 : RepoData :=
  { activeBranch := none
    branches := List.replicate 92 "b"
    trackingBranches := []
    remotes := []
    remoteBranches := [] }

/-- C4 (witness). -/
theorem c4_overflow_error_witness :
    (snapshotC4.branches.length + (specQualifyingRemoteBranches snapshotC4).length
        + ([] : List String).length > checkoutKeys.length) ∧
    ∃ e, prepareCheckoutList snapshotC4 [] = .error e ∧
      e.localBranches = snapshotC4.branches ∧ e.localTags = [] ∧
      e.remoteNontrackingBranches =
        snapshotC4.remoteBranches.filter (remoteBranchKeep snapshotC4) ∧
      e.keysCount = checkoutKeys.length ∧
      e.candidatesCount > checkoutKeys.length :=
  ⟨by decide, c4_overflow_error snapshotC4 [] (by decide)⟩

/-! ### C5: the `no change` entry is the unique no-checkout menu entry -/

/-- A list of branch-name strings never contains a reference value. -/
theorem pstrs_not_contains_pref (l : List String) (x : String) :
    (l.map PyVal.pstr).contains (PyVal.pref x) = false := by
  induction l with
  | nil => rfl
  | cons b rest ih =>
    have hne : (PyVal.pref x == PyVal.pstr b) = false := rfl
    simp only [List.map_cons, List.contains_cons, hne, ih, Bool.or_false]

/-- Because a reference never equals a branch-name string, the
`branch in self.repo.branches` test of the assignment loop is always false
and the checked-out value for a remote item is always the reference. -/
theorem remoteTarget_eq (d : RepoData) (rb : (String × String) × String) :
    remoteTarget d rb = .pref rb.2 := by
  simp [remoteTarget, pstrs_not_contains_pref]

/-- In a menu with distinct keys, looking up a member entry by its key finds
exactly that entry. -/
theorem find?_key_of_mem {β : Type} (l : List (Char × β)) (e : Char × β)
    (hnd : (l.map Prod.fst).Nodup) (he : e ∈ l) :
    l.find? (fun x => x.1 == e.1) = some e := by
  induction l with
  | nil => cases he
  | cons x rest ih =>
    rw [List.map_cons, List.nodup_cons] at hnd
    rcases List.mem_cons.mp he with heq | hmem
    · subst heq
      exact List.find?_cons_of_pos _ (by simp)
    · have hxne : (x.1 == e.1) = false := by
        refine beq_eq_false_iff_ne.mpr fun h => hnd.1 ?_
        rw [h]
        exact List.mem_map_of_mem Prod.fst hmem
      rw [List.find?_cons_of_neg _ (by simp [hxne])]
      exact ih hnd.2 hmem

/-- In a menu with distinct keys, two member entries with the same key are
equal. -/
theorem eq_of_mem_of_same_key {β : Type} (l : List (Char × β))
    (e1 e2 : Char × β) (hnd : (l.map Prod.fst).Nodup)
    (h1 : e1 ∈ l) (h2 : e2 ∈ l) (hk : e1.1 = e2.1) : e1 = e2 := by
  have f1 := find?_key_of_mem l e1 hnd h1
  have f2 := find?_key_of_mem l e2 hnd h2
  rw [hk] at f1
  rw [f1] at f2
  exact Option.some.inj f2

/-- The first components of a zip are an initial segment of the first list. -/
theorem zip_map_fst {α β : Type} :
    ∀ (l1 : List α) (l2 : List β), (l1.zip l2).map Prod.fst = l1.take l2.length
  | [], l2 => by simp
  | a :: l1, [] => by simp
  | a :: l1, b :: l2 => by
    simp [List.zip_cons_cons, zip_map_fst l1 l2]

/-- Key-assignment plus the `no change` annotation pass, in one step: when
the entries split as `E1 ++ (a, none) :: E2` with no `E1` target equal to
`a` and enough keys, the resulting menu is the corresponding zip with
exactly the middle entry annotated `no change`. -/
theorem annotate_zip_spec (a : PyVal) :
    ∀ (keys : List Char) (E1 E2 : List (PyVal × Option String)),
      (∀ e ∈ E1, e.1 ≠ a) → E1.length + 1 + E2.length ≤ keys.length →
      ∃ k keysRest,
        annotateActive a (keys.zip (E1 ++ (a, none) :: E2)) =
          (keys.take E1.length).zip E1
            ++ (k, a, some "no change") :: keysRest.zip E2 ∧
        keys.drop E1.length = k :: keysRest
  | [], E1, E2, h1, hlen => by simp at hlen
  | c :: keys, [], E2, h1, hlen => by
    refine ⟨c, keys, ?_, rfl⟩
    simp [List.zip_cons_cons, annotateActive, List.zip]
  | c :: keys, e :: E1, E2, h1, hlen => by
    have he : e.1 ≠ a := h1 e (List.mem_cons_self e E1)
    have hlen2 : E1.length + 1 + E2.length ≤ keys.length := by
      simp at hlen
      omega
    obtain ⟨k, keysRest, heq, hdrop⟩ :=
      annotate_zip_spec a keys E1 E2 (fun x hx => h1 x (List.mem_cons_of_mem e hx))
        hlen2
    refine ⟨k, keysRest, ?_, by simpa using hdrop⟩
    rcases e with ⟨t, cmt⟩
    simp only [List.cons_append, List.zip_cons_cons, annotateActive,
      if_neg he, List.length_cons, List.take_succ_cons]
    exact congrArg (fun l => (c, t, cmt) :: l) heq

/-- C5: in every checkout menu built while an active branch exists (the
active branch being one of the distinct local branch names, as `refresh`
guarantees), the entry whose target is the active branch carries exactly the
comment `no change`, and its key is the unique menu key whose selection
performs no checkout. -/
theorem c5_no_change_unique (d : RepoData) (tags : List String) (a : String)
    (hact : d.activeBranch = some a) (hmem : a ∈ d.branches)
    (hnd : d.branches.Nodup) (revs : List (Char × PyVal × Option String))
    (hok : prepareCheckoutList d tags = .ok revs) :
    ∃ k, (k, PyVal.pstr a, some "no change") ∈ revs ∧
      ∀ e ∈ revs, (checkoutTarget revs d.activeBranch e.1 = none ↔ e.1 = k) := by
  classical
  -- extract the menu from the successful run
  simp only [prepareCheckoutList] at hok
  split at hok
  · exact absurd hok (by simp)
  rename_i h89
  simp only [hact] at hok
  have hrevs :
      annotateActive (PyVal.pstr a) (checkoutKeys.zip (checkoutEntries d tags)) =
        revs := by
    simpa using hok
  -- split the branch list around the active branch
  obtain ⟨s, t, hsplit⟩ := List.append_of_mem hmem
  have hnd2 : (s ++ a :: t).Nodup := hsplit ▸ hnd
  have has : a ∉ s ∧ a ∉ t := by
    have h3 := List.nodup_middle.mp hnd2
    rw [List.nodup_cons] at h3
    exact ⟨fun h => h3.1 (List.mem_append_left _ h),
      fun h => h3.1 (List.mem_append_right _ h)⟩
  -- the entries list splits around the active-branch entry
  have hentries : checkoutEntries d tags =
      (s.map fun b => (PyVal.pstr b, (none : Option String)))
        ++ ((PyVal.pstr a, (none : Option String)) ::
          ((t.map fun b => (PyVal.pstr b, (none : Option String)))
            ++ ((tags.map fun tg => (PyVal.pref tg, some "tag"))
              ++ ((d.remoteBranches.filter (remoteBranchKeep d)).map
                    (remoteEntry d))))) := by
    simp only [checkoutEntries, hsplit, List.map_append, List.map_cons,
      List.append_assoc, List.cons_append]
  -- no other entry target equals the active branch
  have hE1 : ∀ e ∈ s.map fun b => (PyVal.pstr b, (none : Option String)),
      e.1 ≠ PyVal.pstr a := by
    intro e he
    rcases List.mem_map.mp he with ⟨b, hb, rfl⟩
    simp only [ne_eq, PyVal.pstr.injEq]
    exact fun hba => has.1 (hba ▸ hb)
  have hE2 : ∀ e ∈ (t.map fun b => (PyVal.pstr b, (none : Option String)))
        ++ ((tags.map fun tg => (PyVal.pref tg, some "tag"))
          ++ ((d.remoteBranches.filter (remoteBranchKeep d)).map
                (remoteEntry d))),
      e.1 ≠ PyVal.pstr a := by
    intro e he
    rcases List.mem_append.mp he with h | h
    · rcases List.mem_map.mp h with ⟨b, hb, rfl⟩
      simp only [ne_eq, PyVal.pstr.injEq]
      exact fun hba => has.2 (hba ▸ hb)
    · rcases List.mem_append.mp h with h2 | h2
      · rcases List.mem_map.mp h2 with ⟨tg, _, rfl⟩
        simp
      · rcases List.mem_map.mp h2 with ⟨rb, _, rfl⟩
        simp only [remoteEntry, remoteTarget_eq]
        simp
  -- enough keys for all entries
  have hbr : d.branches.length = s.length + 1 + t.length := by
    rw [hsplit, List.length_append, List.length_cons]
    omega
  have hlen : (s.map fun b => (PyVal.pstr b, (none : Option String))).length + 1
      + ((t.map fun b => (PyVal.pstr b, (none : Option String)))
        ++ ((tags.map fun tg => (PyVal.pref tg, some "tag"))
          ++ ((d.remoteBranches.filter (remoteBranchKeep d)).map
                (remoteEntry d)))).length ≤ checkoutKeys.length := by
    simp only [List.length_map, List.length_append]
    omega
  -- run the assignment and annotation pass
  obtain ⟨k, keysRest, heqrev, hdrop⟩ :=
    annotate_zip_spec (PyVal.pstr a) checkoutKeys
      (s.map fun b => (PyVal.pstr b, (none : Option String)))
      ((t.map fun b => (PyVal.pstr b, (none : Option String)))
        ++ ((tags.map fun tg => (PyVal.pref tg, some "tag"))
          ++ ((d.remoteBranches.filter (remoteBranchKeep d)).map
                (remoteEntry d)))) hE1 hlen
  rw [hentries, heqrev] at hrevs
  -- key bookkeeping
  have hkndall : checkoutKeys.Nodup := by decide
  have hnotn : 'n' ∉ checkoutKeys := by decide
  have hkeysplit : checkoutKeys =
      checkoutKeys.take (s.map fun b => (PyVal.pstr b, (none : Option String))).length
        ++ k :: keysRest := by
    conv_lhs =>
      rw [← List.take_append_drop
        (s.map fun b => (PyVal.pstr b, (none : Option String))).length checkoutKeys]
    rw [hdrop]
  have hsub : List.Sublist (revs.map Prod.fst) checkoutKeys := by
    rw [← hrevs, List.map_append, List.map_cons, zip_map_fst, zip_map_fst]
    rw [List.take_take, Nat.min_self]
    conv_rhs => rw [hkeysplit]
    exact List.Sublist.append_left
      (List.Sublist.cons₂ k (List.take_sublist _ _)) _
  have hknodup : (revs.map Prod.fst).Nodup := List.Nodup.sublist hsub hkndall
  have hne_n : ∀ e ∈ revs, e.1 ≠ 'n' := by
    intro e he h
    exact hnotn (h ▸ hsub.subset (List.mem_map_of_mem Prod.fst he))
  -- targets of the other menu entries differ from the active branch
  have hT1t : ∀ e ∈ (checkoutKeys.take
        (s.map fun b => (PyVal.pstr b, (none : Option String))).length).zip
          (s.map fun b => (PyVal.pstr b, (none : Option String))),
      e.2.1 ≠ PyVal.pstr a := fun e he => hE1 e.2 (List.of_mem_zip he).2
  have hT2t : ∀ e ∈ keysRest.zip
        ((t.map fun b => (PyVal.pstr b, (none : Option String)))
          ++ ((tags.map fun tg => (PyVal.pref tg, some "tag"))
            ++ ((d.remoteBranches.filter (remoteBranchKeep d)).map
                  (remoteEntry d)))),
      e.2.1 ≠ PyVal.pstr a := fun e he => hE2 e.2 (List.of_mem_zip he).2
  have hmid : (k, PyVal.pstr a, some "no change") ∈ revs := by
    rw [← hrevs]
    exact List.mem_append_right _ (List.mem_cons_self _ _)
  refine ⟨k, hmid, ?_⟩
  intro e he
  have hfind := find?_key_of_mem revs e hknodup he
  have hct : checkoutTarget revs d.activeBranch e.1 =
      if e.2.1 = PyVal.pstr a then none else some e.2.1 := by
    rw [hact]
    unfold checkoutTarget
    rw [if_neg (hne_n e he), hfind]
    rfl
  constructor
  · intro h0
    rw [hct] at h0
    by_cases he2 : e.2.1 = PyVal.pstr a
    · -- e's target is the active branch, so e is the annotated entry
      have he' := he
      rw [← hrevs] at he'
      rcases List.mem_append.mp he' with h | h
      · exact absurd he2 (hT1t e h)
      · rcases List.mem_cons.mp h with h2 | h2
        · rw [h2]
        · exact absurd he2 (hT2t e h2)
    · rw [if_neg he2] at h0
      cases h0
  · intro hek
    have he' : e = (k, PyVal.pstr a, some "no change") :=
      eq_of_mem_of_same_key revs e (k, PyVal.pstr a, some "no change")
        hknodup he hmid (by rw [hek])
    rw [hct, he']
    simp

/-- The menu the selector builds for `snapshotC3` (no tags). -/
def revsC5 : List (Char × PyVal × Option String) :=
  [('1', .pstr "master", some "no change"),
   ('2', .pref "origin/master",
     some ("based on " ++ pyStr (.ptup2 (.pstr "origin") (.pstr "master")))),
   ('3', .pref "origin/HEAD",
     some ("based on " ++ pyStr (.ptup2 (.pstr "origin") (.pstr "HEAD"))))]

/-- C5 (witness). -/
theorem c5_no_change_unique_witness :
    (snapshotC3.activeBranch = some "master" ∧ "master" ∈ snapshotC3.branches ∧
      snapshotC3.branches.Nodup ∧
      prepareCheckoutList snapshotC3 [] = .ok revsC5) ∧
    ∃ k, (k, PyVal.pstr "master", some "no change") ∈ revsC5 ∧
      ∀ e ∈ revsC5,
        (checkoutTarget revsC5 snapshotC3.activeBranch e.1 = none ↔ e.1 = k) :=
  ⟨⟨rfl, by decide, by decide, rfl⟩,
    c5_no_change_unique snapshotC3 [] "master" rfl (by decide) (by decide)
      revsC5 rfl⟩

end Ingit
